import Mathlib

/-!
Verification of the sensor-fault-classification transformation stage.

This file gives a shallow embedding of the two source files
`sensor/components/data_transformation.py` and
`sensor/configuration/mongo_db_connection.py`, and proves properties of the
embedded definitions.  Tables are lists of rows of optional rationals
(a missing CSV cell is `none`); the scikit-learn pipeline steps
(constant imputation, robust scaling), the imblearn SMOTETomek resampler and
the pandas `replace` call are embedded by executable functions that follow the
documented semantics of those library calls as used by the source; file reads,
array/object writes and the geometric choices internal to SMOTE/Tomek
(synthetic-sample generator, discovered Tomek links) are supplied by an
environment record, since they depend on the outside world.
-/

namespace Sensor

/-- A cell of a feature column as read from the CSV: a numeric value, or
`none` for a missing entry. -/
abbrev Cell := Option ℚ

/-- Errors of the embedded Python program.  `sensorException e` is the single
project exception kind `SensorException` wrapping its original cause `e`. -/
inductive PyErr where
  | ioError : String → PyErr
  | keyError : String → PyErr
  | valueError : String → PyErr
  | writeError : String → PyErr
  | sensorException : PyErr → PyErr
deriving DecidableEq

/-- Modelled from the spec: `TARGET_COLUMN` from
`sensor.constant.training_pipeline` (absent from src/): the name of the one
designated label column. -/
def TARGET_COLUMN : String := "class"

/-- A validated tabular file in memory (`pd.read_csv` result): the numeric
feature columns, row by row, and the designated label column when the file
has one (`none` embeds a frame in which `TARGET_COLUMN` is absent). -/
structure Table where
  features : List (List Cell)
  labelCol : Option (List String)
deriving DecidableEq

/-- `df.drop(columns=[TARGET_COLUMN], axis=1)`: the feature part of the
frame; raises `KeyError` when the label column is absent. -/
def Table.drop_target (t : Table) : Except PyErr (List (List Cell)) :=
  match t.labelCol with
  | some _ => .ok t.features
  | none => .error (PyErr.keyError TARGET_COLUMN)

/-- `df[TARGET_COLUMN]`: the raw label column; raises `KeyError` when it is
absent. -/
def Table.get_target (t : Table) : Except PyErr (List String) :=
  match t.labelCol with
  | some ys => .ok ys
  | none => .error (PyErr.keyError TARGET_COLUMN)

/-- A label cell after `Series.replace`: either a numeric code from the
mapping dictionary, or the untouched original text for a token the
dictionary does not contain. -/
inductive LabelVal where
  | num : ℚ → LabelVal
  | text : String → LabelVal
deriving DecidableEq

/-- Modelled from the spec: `TargetValueMapping().to_dict()` from
`sensor.ml.model.estimator` (absent from src/): the fixed dictionary sending
the positive label token to numeric code 1 and the negative label token to
numeric code 0. -/
def targetValueMappingDict : List (String × ℚ) := [("pos", (1 : ℚ)), ("neg", (0 : ℚ))]

/-- `series.replace(dict)` on the label column: a token present in the
dictionary becomes its numeric code; any other token is left unchanged as
text. -/
def replaceLabels (dict : List (String × ℚ)) (labels : List String) : List LabelVal :=
  labels.map (fun s =>
    match dict.lookup s with
    | some q => LabelVal.num q
    | none => LabelVal.text s)

/-- Insert a value into a sorted list of rationals, keeping it sorted. -/
def insertSorted (x : ℚ) : List ℚ → List ℚ
  | [] => [x]
  | y :: ys => if x ≤ y then x :: y :: ys else y :: insertSorted x ys

/-- Ascending sort of a list of rationals (insertion sort). -/
def sortQ (l : List ℚ) : List ℚ := l.foldr insertSorted []

/-- The `k/4`-quantile of a list with numpy-style linear interpolation
(`k = 1` first quartile, `k = 2` median, `k = 3` third quartile), the
statistic used by `RobustScaler`; 0 on an empty list. -/
def quantileQuarter (k : Nat) (l : List ℚ) : ℚ :=
  let s := sortQ l
  let n := s.length
  if n = 0 then 0
  else
    let pos := k * (n - 1)
    let i := pos / 4
    let r := pos % 4
    let lo := s.getD i 0
    let hi := s.getD (i + 1) lo
    lo + ((r : ℚ) / 4) * (hi - lo)

/-- The fitted state of `RobustScaler()`: per-feature center (median) and
scale (interquartile range, with zero ranges replaced by 1 as sklearn
does). -/
structure FittedScaler where
  centers : List ℚ
  scales : List ℚ
deriving DecidableEq

/-- `RobustScaler().fit(X)`: learn the per-column median and interquartile
range of the training matrix. -/
def fitScaler (X : List (List ℚ)) : FittedScaler :=
  let cols := X.transpose
  { centers := cols.map (quantileQuarter 2),
    scales := cols.map (fun col =>
      let iqr := quantileQuarter 3 col - quantileQuarter 1 col
      if iqr = 0 then 1 else iqr) }

/-- Apply a fitted robust scaler: each value is centered by the stored
median and divided by the stored scale of its column. -/
def scalerTransform (s : FittedScaler) (X : List (List ℚ)) : List (List ℚ) :=
  X.map (fun row =>
    (row.zip (s.centers.zip s.scales)).map (fun p => (p.1 - p.2.1) / p.2.2))

/-- The unfitted two-step pipeline: its only hyperparameter is the constant
used by `SimpleImputer(strategy='constant', fill_value=0)`. -/
structure PipelineSpec where
  fill_value : ℚ
deriving DecidableEq

/-- `get_data_transformer_object`: build the Imputer + RobustScaler
pipeline with fill value 0. -/
def get_data_transformer_object : PipelineSpec := { fill_value := 0 }

/-- `SimpleImputer(strategy='constant', fill_value=v).transform`: replace
every missing cell by the constant `v`. -/
def imputeWith (v : ℚ) (X : List (List Cell)) : List (List ℚ) :=
  X.map (fun row => row.map (fun c => c.getD v))

/-- The fitted state of the two-step pipeline: the imputation constant and
the fitted scaler statistics. -/
structure FittedPipeline where
  fill_value : ℚ
  scaler : FittedScaler
deriving DecidableEq

/-- `preprocessor.fit(X)`: the imputer learns nothing beyond its constant,
the scaler is fitted on the imputed training matrix. -/
def Pipeline.fit (spec : PipelineSpec) (X : List (List Cell)) : FittedPipeline :=
  { fill_value := spec.fill_value, scaler := fitScaler (imputeWith spec.fill_value X) }

/-- `preprocessor_object.transform(X)`: impute with the stored constant,
then apply the fitted scaler statistics. -/
def FittedPipeline.transform (p : FittedPipeline) (X : List (List Cell)) : List (List ℚ) :=
  scalerTransform p.scaler (imputeWith p.fill_value X)

/-- The method-call view of `transform`: it returns its output together with
the fitted object as it stands after the call (sklearn's `transform` only
reads the fitted statistics, it never rewrites them). -/
def FittedPipeline.transformM (p : FittedPipeline) (X : List (List Cell)) :
    List (List ℚ) × FittedPipeline :=
  (p.transform X, p)

/-- Whether a post-replace label cell is a numeric code (as opposed to
leftover text). -/
def LabelVal.isNum : LabelVal → Bool
  | .num _ => true
  | .text _ => false

/-- sklearn's `check_classification_targets`, run by imblearn at the top of
every `fit_resample`: a label vector mixing numeric codes with leftover
text is not a valid classification target and raises (`type_of_target`
yields the unknown kind on such an object series, and comparing int with
str likewise fails inside `np.unique`); a uniformly numeric or uniformly
textual vector passes. -/
def check_classification_targets (y : List LabelVal) : Except PyErr Unit :=
  if y.any LabelVal.isNum && y.any (fun v => !v.isNum) then
    .error (PyErr.valueError "Unknown label type")
  else .ok ()

/-- The minority class of a label vector: the present class with the fewest
occurrences (first such class on ties), as selected by
`sampling_strategy='minority'`; `none` on an empty vector. -/
def minorityClass (y : List LabelVal) : Option LabelVal :=
  match y.dedup with
  | [] => none
  | c :: cs => some (cs.foldl (fun m c' => if y.count c' < y.count m then c' else m) c)

/-- The number of occurrences of the most frequent class of a label
vector. -/
def majorityCount (y : List LabelVal) : Nat :=
  (y.dedup.map (fun c => y.count c)).foldl Nat.max 0

/-- The SMOTE phase of `SMOTETomek(sampling_strategy='minority')`: append
synthetic minority-class samples (produced by the interpolation oracle
`synth`) until the minority class reaches the majority count. -/
def smote_minority (synth : Nat → List ℚ) (X : List (List ℚ)) (y : List LabelVal) :
    List (List ℚ) × List LabelVal :=
  match minorityClass y with
  | none => (X, y)
  | some m =>
    let k := majorityCount y - y.count m
    (X ++ (List.range k).map synth, y ++ List.replicate k m)

/-- Remove the first row carrying the given label, if any. -/
def removeFirstWithLabel (c : LabelVal) : List (List ℚ × LabelVal) → List (List ℚ × LabelVal)
  | [] => []
  | r :: rs => if r.2 = c then rs else r :: removeFirstWithLabel c rs

/-- The Tomek phase of SMOTETomek (`TomekLinks(sampling_strategy='all')`):
every discovered Tomek link is a pair of mutual nearest neighbours with
different labels, and both of its members are removed.  The links found by
the library are supplied as the list of their label pairs. -/
def tomekRemoveAll (links : List (LabelVal × LabelVal)) (rows : List (List ℚ × LabelVal)) :
    List (List ℚ × LabelVal) :=
  links.foldl (fun acc l => removeFirstWithLabel l.2 (removeFirstWithLabel l.1 acc)) rows

/-- `SMOTETomek(sampling_strategy='minority').fit_resample(X, y)`:
oversample the minority class to the majority count, then remove both
members of every Tomek link. -/
def smotetomek_fit_resample (synth : Nat → List ℚ) (links : List (LabelVal × LabelVal))
    (X : List (List ℚ)) (y : List LabelVal) : List (List ℚ) × List LabelVal :=
  let s := smote_minority synth X y
  let rows := tomekRemoveAll links (s.1.zip s.2)
  (rows.map Prod.fst, rows.map Prod.snd)

/-- `smt.fit_resample(X, y)` as called by the source: imblearn first
validates the target vector with `check_classification_targets`, then
resamples. -/
def SMOTETomek.fit_resample (synth : Nat → List ℚ) (links : List (LabelVal × LabelVal))
    (X : List (List ℚ)) (y : List LabelVal) :
    Except PyErr (List (List ℚ) × List LabelVal) :=
  match check_classification_targets y with
  | .error e => .error e
  | .ok _ => .ok (smotetomek_fit_resample synth links X y)

/-- `np.c_[X, np.array(y)]`: append each row's label as the last column of
the feature matrix. -/
def concatWithTarget (X : List (List ℚ)) (y : List LabelVal) : List (List LabelVal) :=
  (X.zip y).map (fun r => r.1.map LabelVal.num ++ [r.2])

/-- One split's balanced final array: resample, then concatenate features
with the label column. -/
def balancedArr (synth : Nat → List ℚ) (links : List (LabelVal × LabelVal))
    (X : List (List ℚ)) (y : List LabelVal) : List (List LabelVal) :=
  concatWithTarget (smotetomek_fit_resample synth links X y).1
    (smotetomek_fit_resample synth links X y).2

/-- The in-memory outcome of the transformation part of the run: the fitted
preprocessor and the two final arrays. -/
structure TransformOut where
  preprocessor_object : FittedPipeline
  train_arr : List (List LabelVal)
  test_arr : List (List LabelVal)
deriving DecidableEq

/-- A feature table with no missing cell. -/
def noMissing (X : List (List Cell)) : Prop :=
  ∀ row ∈ X, ∀ c ∈ row, c.isSome

instance instDecidableNoMissing (X : List (List Cell)) : Decidable (noMissing X) :=
  List.decidableBAll _ X

/-- The raw numeric values of a table, dropping missing cells (on a table
with no missing cell this is exactly the table's numeric content). -/
def rawValues (X : List (List Cell)) : List (List ℚ) :=
  X.map List.reduceOption

/-- Output record of the upstream validation stage: the two input file
paths. -/
structure DataValidationArtifact where
  valid_train_file_path : String
  valid_test_file_path : String
deriving DecidableEq

/-- Configuration of the transformation stage: the three output file
paths. -/
structure DataTransformationConfig where
  transformed_object_file_path : String
  transformed_train_file_path : String
  transformed_test_file_path : String
deriving DecidableEq

/-- The stage's return value: the three output file paths. -/
structure DataTransformationArtifact where
  transformed_object_file_path : String
  transformed_train_file_path : String
  transformed_test_file_path : String
deriving DecidableEq

/-- The outside world as seen by one run: what `pd.read_csv` yields at each
path, whether each write succeeds, and the library-internal geometric
choices of the two `fit_resample` calls (interpolated synthetic samples and
discovered Tomek links, for the train and the test call respectively). -/
structure Env where
  read_csv : String → Except PyErr Table
  save_numpy_array_data : String → List (List LabelVal) → Except PyErr Unit
  save_object : String → FittedPipeline → Except PyErr Unit
  smote_synth_train : Nat → List ℚ
  smote_links_train : List (LabelVal × LabelVal)
  smote_synth_test : Nat → List ℚ
  smote_links_test : List (LabelVal × LabelVal)

/-- `DataTransformation.read_data`: `pd.read_csv` with any failure wrapped
into `SensorException`. -/
def read_data (env : Env) (file_path : String) : Except PyErr Table :=
  match env.read_csv file_path with
  | .ok df => .ok df
  | .error e => .error (PyErr.sensorException e)

/-- The `except Exception as e: raise SensorException(e, sys)` handler: a
result is passed through, any error is wrapped once more into
`SensorException`. -/
def wrapSensor {α : Type} (x : Except PyErr α) : Except PyErr α :=
  match x with
  | .ok a => .ok a
  | .error e => .error (PyErr.sensorException e)

/-- The in-memory heart of `initiate_data_transformation` (source lines
covering the frame split, label mapping, pipeline fit/transform and the two
resampling calls): split both frames, map labels through the fixed
dictionary, fit the preprocessor on the train features only, transform both
splits with the fitted object, rebalance each split independently and
concatenate features with labels. -/
def transform_frames (synthTr : Nat → List ℚ) (linksTr : List (LabelVal × LabelVal))
    (synthTe : Nat → List ℚ) (linksTe : List (LabelVal × LabelVal))
    (train_df test_df : Table) : Except PyErr TransformOut :=
  match train_df.drop_target with
  | .error e => .error e
  | .ok input_feature_train_df =>
  match train_df.get_target with
  | .error e => .error e
  | .ok train_target_raw =>
  match test_df.drop_target with
  | .error e => .error e
  | .ok input_feature_test_df =>
  match test_df.get_target with
  | .error e => .error e
  | .ok test_target_raw =>
  match SMOTETomek.fit_resample synthTr linksTr
      ((Pipeline.fit get_data_transformer_object input_feature_train_df).transform
        input_feature_train_df)
      (replaceLabels targetValueMappingDict train_target_raw) with
  | .error e => .error e
  | .ok train_res =>
  match SMOTETomek.fit_resample synthTe linksTe
      ((Pipeline.fit get_data_transformer_object input_feature_train_df).transform
        input_feature_test_df)
      (replaceLabels targetValueMappingDict test_target_raw) with
  | .error e => .error e
  | .ok test_res =>
  .ok { preprocessor_object := Pipeline.fit get_data_transformer_object input_feature_train_df,
        train_arr := concatWithTarget train_res.1 train_res.2,
        test_arr := concatWithTarget test_res.1 test_res.2 }

/-- The body of the `try` block of `initiate_data_transformation`: read both
frames (each read already `SensorException`-wrapping its own failure),
transform, then persist the two arrays and the fitted object, and return
the artifact of the three configured paths. -/
def initiate_body (env : Env) (dva : DataValidationArtifact)
    (cfg : DataTransformationConfig) : Except PyErr DataTransformationArtifact :=
  match read_data env dva.valid_train_file_path with
  | .error e => .error e
  | .ok train_df =>
  match read_data env dva.valid_test_file_path with
  | .error e => .error e
  | .ok test_df =>
  match transform_frames env.smote_synth_train env.smote_links_train
      env.smote_synth_test env.smote_links_test train_df test_df with
  | .error e => .error e
  | .ok out =>
  match env.save_numpy_array_data cfg.transformed_train_file_path out.train_arr with
  | .error e => .error e
  | .ok _ =>
  match env.save_numpy_array_data cfg.transformed_test_file_path out.test_arr with
  | .error e => .error e
  | .ok _ =>
  match env.save_object cfg.transformed_object_file_path out.preprocessor_object with
  | .error e => .error e
  | .ok _ =>
  .ok { transformed_object_file_path := cfg.transformed_object_file_path,
        transformed_train_file_path := cfg.transformed_train_file_path,
        transformed_test_file_path := cfg.transformed_test_file_path }

/-- `DataTransformation.initiate_data_transformation`: the try block under
the single `except` handler that wraps any escaping error into
`SensorException`. -/
def initiate_data_transformation (env : Env) (dva : DataValidationArtifact)
    (cfg : DataTransformationConfig) : Except PyErr DataTransformationArtifact :=
  wrapSensor (initiate_body env dva cfg)

/-- Modelled from the spec: `DATABASE_NAME` from `sensor.constant.database`
(absent from src/): the default database name. -/
def DATABASE_NAME : String := "sensor_db"

/-- The process-wide mutable state behind `MongoDBClient`: the class
attribute `MongoDBClient.client` (a connection handle, when one was ever
built) together with a count of how many `pymongo.MongoClient` connections
have been allocated in this process.  A connection handle is identified by
its allocation index. -/
structure MongoState where
  client : Option Nat
  created : Nat
deriving DecidableEq

/-- One constructed `MongoDBClient` instance: its `self.client`,
`self.database` (a handle keyed by the connection and the database name)
and `self.database_name`. -/
structure MongoInstance where
  client : Nat
  database : Nat × String
  database_name : String
deriving DecidableEq

/-- `MongoDBClient.__init__`: when the class attribute holds no connection,
allocate one and store it in the class attribute; in every case the
instance takes the class-level connection, keys its database handle by the
given name, and records the name. -/
def MongoDBClient.construct (s : MongoState) (database_name : String) :
    MongoInstance × MongoState :=
  match s.client with
  | none =>
    let conn := s.created
    ({ client := conn, database := (conn, database_name), database_name := database_name },
     { client := some conn, created := s.created + 1 })
  | some conn =>
    ({ client := conn, database := (conn, database_name), database_name := database_name }, s)

/-- The state of a process in which no `MongoDBClient` was ever
constructed. -/
def freshProcess : MongoState := { client := none, created := 0 }

/-- Construct one `MongoDBClient` per listed database name, in order,
threading the process state. -/
def constructAll (s : MongoState) (names : List String) :
    List MongoInstance × MongoState :=
  match names with
  | [] => ([], s)
  | n :: ns =>
    let r := MongoDBClient.construct s n
    let rest := constructAll r.2 ns
    (r.1 :: rest.1, rest.2)

deriving instance DecidableEq for Except

/-! ## Helper lemmas -/

/-- Inverting the exception handler: a wrapped computation that returned a
value is the unwrapped computation returning that value. -/
theorem wrapSensor_ok {α : Type} {x : Except PyErr α} {a : α}
    (h : wrapSensor x = .ok a) : x = .ok a := by
  cases x with
  | ok b => simpa [wrapSensor] using h
  | error e => simp [wrapSensor] at h

/-- A successful `read_data` is a successful underlying `read_csv`. -/
theorem read_data_ok {env : Env} {p : String} {t : Table}
    (h : read_data env p = .ok t) : env.read_csv p = .ok t := by
  cases hx : env.read_csv p with
  | ok df =>
    rw [read_data, hx] at h
    simpa using h
  | error e =>
    rw [read_data, hx] at h
    simp at h

/-- Full inversion of a successful run body: every fallible step succeeded
and the returned artifact is the record of the three configured paths. -/
theorem initiate_body_ok_elim {env : Env} {dva : DataValidationArtifact}
    {cfg : DataTransformationConfig} {a : DataTransformationArtifact}
    (h : initiate_body env dva cfg = .ok a) :
    (∃ train_df test_df out,
      env.read_csv dva.valid_train_file_path = .ok train_df ∧
      env.read_csv dva.valid_test_file_path = .ok test_df ∧
      transform_frames env.smote_synth_train env.smote_links_train
        env.smote_synth_test env.smote_links_test train_df test_df = .ok out ∧
      env.save_numpy_array_data cfg.transformed_train_file_path out.train_arr = .ok () ∧
      env.save_numpy_array_data cfg.transformed_test_file_path out.test_arr = .ok () ∧
      env.save_object cfg.transformed_object_file_path out.preprocessor_object = .ok ()) ∧
    a = { transformed_object_file_path := cfg.transformed_object_file_path,
          transformed_train_file_path := cfg.transformed_train_file_path,
          transformed_test_file_path := cfg.transformed_test_file_path } := by
  unfold initiate_body at h
  split at h
  next e heq1 => simp at h
  next train_df heq1 =>
  split at h
  next e heq2 => simp at h
  next test_df heq2 =>
  split at h
  next e heq3 => simp at h
  next out heq3 =>
  split at h
  next e heq4 => simp at h
  next u4 heq4 =>
  split at h
  next e heq5 => simp at h
  next u5 heq5 =>
  split at h
  next e heq6 => simp at h
  next u6 heq6 =>
  cases u4; cases u5; cases u6
  refine ⟨⟨train_df, test_df, out, read_data_ok heq1, read_data_ok heq2, heq3,
    heq4, heq5, heq6⟩, ?_⟩
  simpa using h.symm

/-- Inversion of a successful checked resampling call: the target
validation passed and the result is the resampled pair. -/
theorem fit_resample_ok_elim {synth : Nat → List ℚ} {links : List (LabelVal × LabelVal)}
    {X : List (List ℚ)} {y : List LabelVal} {r : List (List ℚ) × List LabelVal}
    (h : SMOTETomek.fit_resample synth links X y = .ok r) :
    check_classification_targets y = .ok () ∧
    r = smotetomek_fit_resample synth links X y := by
  unfold SMOTETomek.fit_resample at h
  split at h
  next e heq => simp at h
  next u heq =>
    cases u
    exact ⟨heq, by simpa using h.symm⟩

/-- Inversion of a successful frame transformation: both frames carried the
label column, both mapped label vectors passed the library's target
validation, the fitted preprocessor is the pipeline fitted on the train
features, and each final array is the balanced concatenation of the
features transformed by that same fitted object with the mapped labels. -/
theorem transform_frames_ok_elim {s1 : Nat → List ℚ} {l1 : List (LabelVal × LabelVal)}
    {s2 : Nat → List ℚ} {l2 : List (LabelVal × LabelVal)} {tr te : Table}
    {o : TransformOut}
    (h : transform_frames s1 l1 s2 l2 tr te = .ok o) :
    ∃ ytr yte, tr.labelCol = some ytr ∧ te.labelCol = some yte ∧
      o.preprocessor_object = Pipeline.fit get_data_transformer_object tr.features ∧
      o.train_arr = balancedArr s1 l1 (o.preprocessor_object.transform tr.features)
        (replaceLabels targetValueMappingDict ytr) ∧
      o.test_arr = balancedArr s2 l2 (o.preprocessor_object.transform te.features)
        (replaceLabels targetValueMappingDict yte) ∧
      check_classification_targets (replaceLabels targetValueMappingDict ytr) = .ok () ∧
      check_classification_targets (replaceLabels targetValueMappingDict yte) = .ok () := by
  unfold transform_frames at h
  split at h
  next e heq1 => simp at h
  next ftr heq1 =>
  split at h
  next e heq2 => simp at h
  next ytr heq2 =>
  split at h
  next e heq3 => simp at h
  next fte heq3 =>
  split at h
  next e heq4 => simp at h
  next yte heq4 =>
  split at h
  next e heq5 => simp at h
  next train_res heq5 =>
  split at h
  next e heq6 => simp at h
  next test_res heq6 =>
  have hftr : ftr = tr.features := by
    cases hl : tr.labelCol with
    | none => rw [Table.drop_target, hl] at heq1; simp at heq1
    | some ys => rw [Table.drop_target, hl] at heq1; simpa using heq1.symm
  have hfte : fte = te.features := by
    cases hl : te.labelCol with
    | none => rw [Table.drop_target, hl] at heq3; simp at heq3
    | some ys => rw [Table.drop_target, hl] at heq3; simpa using heq3.symm
  have hytr : tr.labelCol = some ytr := by
    cases hl : tr.labelCol with
    | none => rw [Table.get_target, hl] at heq2; simp at heq2
    | some ys => rw [Table.get_target, hl] at heq2; simp at heq2; rw [heq2]
  have hyte : te.labelCol = some yte := by
    cases hl : te.labelCol with
    | none => rw [Table.get_target, hl] at heq4; simp at heq4
    | some ys => rw [Table.get_target, hl] at heq4; simp at heq4; rw [heq4]
  subst hftr
  subst hfte
  obtain ⟨hchk1, hres1⟩ := fit_resample_ok_elim heq5
  obtain ⟨hchk2, hres2⟩ := fit_resample_ok_elim heq6
  subst hres1
  subst hres2
  refine ⟨ytr, yte, hytr, hyte, ?_⟩
  have ho := h
  simp only [Except.ok.injEq] at ho
  subst ho
  exact ⟨rfl, rfl, rfl, hchk1, hchk2⟩

/-! ## Concrete fixtures used by witnesses and counterexamples -/

/-- A one-row table with zero feature columns and the positive label. -/
def tblPosW : Table := { features := [[]], labelCol := some ["pos"] }

/-- A one-row table with zero feature columns and the negative label. -/
def tblNegW : Table := { features := [[]], labelCol := some ["neg"] }

/-- A zero-row table. -/
def tblEmptyW : Table := { features := [], labelCol := some [] }

/-- A degenerate synthetic-sample generator producing empty rows. -/
def synthW : Nat → List ℚ := fun _ => []

/-- The pipeline fitted on a matrix with no columns. -/
def fittedW : FittedPipeline := { fill_value := 0, scaler := { centers := [], scales := [] } }

/-- A fully successful environment serving `tblPosW` at every path. -/
def envW : Env :=
  { read_csv := fun _ => .ok tblPosW,
    save_numpy_array_data := fun _ _ => .ok (),
    save_object := fun _ _ => .ok (),
    smote_synth_train := synthW, smote_links_train := [],
    smote_synth_test := synthW, smote_links_test := [] }

/-- A concrete validation artifact. -/
def dvaW : DataValidationArtifact :=
  { valid_train_file_path := "train.csv", valid_test_file_path := "test.csv" }

/-- A concrete transformation configuration. -/
def cfgW : DataTransformationConfig :=
  { transformed_object_file_path := "preprocessor.pkl",
    transformed_train_file_path := "train.npy",
    transformed_test_file_path := "test.npy" }

/-- The artifact carrying the three paths of `cfgW`. -/
def artW : DataTransformationArtifact :=
  { transformed_object_file_path := "preprocessor.pkl",
    transformed_train_file_path := "train.npy",
    transformed_test_file_path := "test.npy" }

/-- Expected transformation outcome for `tblPosW`/`tblNegW`. -/
def outW1 : TransformOut :=
  { preprocessor_object := fittedW,
    train_arr := [[LabelVal.num 1]], test_arr := [[LabelVal.num 0]] }

/-- Expected transformation outcome for `tblPosW`/`tblEmptyW`. -/
def outW2 : TransformOut :=
  { preprocessor_object := fittedW,
    train_arr := [[LabelVal.num 1]], test_arr := [] }

/-! ## Claims -/

/-- Claim C2: the fitted preprocessing state is a function of the training
features only.  Two runs of the transformation on the same train frame but
arbitrary different test frames (and different resampling oracles for the
test split) produce the same fitted preprocessor; that preprocessor is the
pipeline fitted on the train features; and the train and test arrays of a
run are both built from features transformed by this one fitted object. -/
theorem preprocessor_fitted_on_train_features_only
    (s1 : Nat → List ℚ) (l1 : List (LabelVal × LabelVal))
    (s2 : Nat → List ℚ) (l2 : List (LabelVal × LabelVal))
    (s2' : Nat → List ℚ) (l2' : List (LabelVal × LabelVal))
    (tr te te' : Table) (o o' : TransformOut)
    (h : transform_frames s1 l1 s2 l2 tr te = .ok o)
    (h' : transform_frames s1 l1 s2' l2' tr te' = .ok o') :
    o.preprocessor_object = Pipeline.fit get_data_transformer_object tr.features ∧
    o.preprocessor_object = o'.preprocessor_object ∧
    (∃ ytr, tr.labelCol = some ytr ∧
      o.train_arr = balancedArr s1 l1 (o.preprocessor_object.transform tr.features)
        (replaceLabels targetValueMappingDict ytr)) ∧
    (∃ yte, te.labelCol = some yte ∧
      o.test_arr = balancedArr s2 l2 (o.preprocessor_object.transform te.features)
        (replaceLabels targetValueMappingDict yte)) := by
  obtain ⟨ytr, yte, htr, hte, hp, htrain, htest, -, -⟩ := transform_frames_ok_elim h
  obtain ⟨ytr', yte', htr', hte', hp', -, -, -, -⟩ := transform_frames_ok_elim h'
  exact ⟨hp, hp.trans hp'.symm, ⟨ytr, htr, htrain⟩, ⟨yte, hte, htest⟩⟩

/-- Witness for C2 at concrete frames: the hypotheses hold at `tblPosW`
with two different test frames, and the theorem applies. -/
theorem preprocessor_fitted_on_train_features_only_witness :
    transform_frames synthW [] synthW [] tblPosW tblNegW = .ok outW1 ∧
    transform_frames synthW [] synthW [] tblPosW tblEmptyW = .ok outW2 ∧
    (outW1.preprocessor_object = Pipeline.fit get_data_transformer_object tblPosW.features ∧
      outW1.preprocessor_object = outW2.preprocessor_object ∧
      (∃ ytr, tblPosW.labelCol = some ytr ∧
        outW1.train_arr = balancedArr synthW []
          (outW1.preprocessor_object.transform tblPosW.features)
          (replaceLabels targetValueMappingDict ytr)) ∧
      (∃ yte, tblNegW.labelCol = some yte ∧
        outW1.test_arr = balancedArr synthW []
          (outW1.preprocessor_object.transform tblNegW.features)
          (replaceLabels targetValueMappingDict yte))) :=
  ⟨by decide, by decide,
    preprocessor_fitted_on_train_features_only synthW [] synthW [] synthW []
      tblPosW tblNegW tblEmptyW outW1 outW2 (by decide) (by decide)⟩

/-- Claim C4: every failure of the transformation run surfaces as the single
exception kind `SensorException` carrying its original cause; a run either
returns an artifact or propagates exactly such a wrapped error. -/
theorem run_failure_surfaces_single_wrapped_exception
    (env : Env) (dva : DataValidationArtifact) (cfg : DataTransformationConfig) :
    (∃ a, initiate_data_transformation env dva cfg = .ok a) ∨
    (∃ e, initiate_data_transformation env dva cfg = .error (PyErr.sensorException e)) := by
  cases h : initiate_body env dva cfg with
  | ok a => exact Or.inl ⟨a, by simp [initiate_data_transformation, wrapSensor, h]⟩
  | error e => exact Or.inr ⟨e, by simp [initiate_data_transformation, wrapSensor, h]⟩

/-- Claim C6: applying `transform` a second time to the same input, with the
fitted state threaded through the first call, reproduces the first output
exactly: the transform is deterministic in the fitted state and the input,
and the call leaves the fitted state untouched. -/
theorem transform_second_application_reproduces_output
    (p : FittedPipeline) (X : List (List Cell)) :
    ((p.transformM X).2.transformM X).1 = (p.transformM X).1 ∧
    (p.transformM X).2 = p := ⟨rfl, rfl⟩

/-- Claim C7: a run that returns an artifact is a run in which every
fallible step succeeded; contrapositively, a failure anywhere (read,
transformation, any write) means no artifact record is returned to the
caller — there is no partial-artifact recovery. -/
theorem run_success_requires_every_step_ok
    (env : Env) (dva : DataValidationArtifact) (cfg : DataTransformationConfig)
    (a : DataTransformationArtifact)
    (h : initiate_data_transformation env dva cfg = .ok a) :
    ∃ train_df test_df out,
      env.read_csv dva.valid_train_file_path = .ok train_df ∧
      env.read_csv dva.valid_test_file_path = .ok test_df ∧
      transform_frames env.smote_synth_train env.smote_links_train
        env.smote_synth_test env.smote_links_test train_df test_df = .ok out ∧
      env.save_numpy_array_data cfg.transformed_train_file_path out.train_arr = .ok () ∧
      env.save_numpy_array_data cfg.transformed_test_file_path out.test_arr = .ok () ∧
      env.save_object cfg.transformed_object_file_path out.preprocessor_object = .ok () :=
  (initiate_body_ok_elim (wrapSensor_ok h)).1

/-- Witness for C7: a concrete fully successful run, to which the theorem
applies. -/
theorem run_success_requires_every_step_ok_witness :
    initiate_data_transformation envW dvaW cfgW = .ok artW ∧
    ∃ train_df test_df out,
      envW.read_csv dvaW.valid_train_file_path = .ok train_df ∧
      envW.read_csv dvaW.valid_test_file_path = .ok test_df ∧
      transform_frames envW.smote_synth_train envW.smote_links_train
        envW.smote_synth_test envW.smote_links_test train_df test_df = .ok out ∧
      envW.save_numpy_array_data cfgW.transformed_train_file_path out.train_arr = .ok () ∧
      envW.save_numpy_array_data cfgW.transformed_test_file_path out.test_arr = .ok () ∧
      envW.save_object cfgW.transformed_object_file_path out.preprocessor_object = .ok () :=
  ⟨by decide, run_success_requires_every_step_ok envW dvaW cfgW artW (by decide)⟩

/-- Claim C8: a successful run returns exactly the record of the three
output paths taken from the transformation configuration, and nothing
else. -/
theorem artifact_paths_come_from_config
    (env : Env) (dva : DataValidationArtifact) (cfg : DataTransformationConfig)
    (a : DataTransformationArtifact)
    (h : initiate_data_transformation env dva cfg = .ok a) :
    a = { transformed_object_file_path := cfg.transformed_object_file_path,
          transformed_train_file_path := cfg.transformed_train_file_path,
          transformed_test_file_path := cfg.transformed_test_file_path } :=
  (initiate_body_ok_elim (wrapSensor_ok h)).2

/-- Witness for C8: the concrete successful run returns the record of the
three configured paths. -/
theorem artifact_paths_come_from_config_witness :
    initiate_data_transformation envW dvaW cfgW = .ok artW ∧
    artW = { transformed_object_file_path := cfgW.transformed_object_file_path,
             transformed_train_file_path := cfgW.transformed_train_file_path,
             transformed_test_file_path := cfgW.transformed_test_file_path } :=
  ⟨by decide, artifact_paths_come_from_config envW dvaW cfgW artW (by decide)⟩

/-- Once the class-level connection exists, constructing any number of
further clients neither changes the process state nor hands out any other
connection. -/
theorem constructAll_stable (ns : List String) (s : MongoState) (c : Nat)
    (hc : s.client = some c) :
    constructAll s ns =
      (ns.map (fun n => { client := c, database := (c, n), database_name := n }), s) := by
  induction ns with
  | nil => rfl
  | cons n ns ih =>
    have hstep : MongoDBClient.construct s n =
        ({ client := c, database := (c, n), database_name := n }, s) := by
      rw [MongoDBClient.construct, hc]
    simp [constructAll, hstep, ih]

/-- Claim C9: the document-database connection is initialized at most once
per process.  Starting from a fresh process, any sequence of client
constructions allocates at most one `pymongo.MongoClient` connection, and
every constructed instance holds that first connection. -/
theorem mongo_connection_created_at_most_once (names : List String) :
    (constructAll freshProcess names).2.created ≤ 1 ∧
    ∀ i ∈ (constructAll freshProcess names).1, i.client = 0 := by
  cases names with
  | nil => exact ⟨by decide, by simp [constructAll]⟩
  | cons n ns =>
    have h1 : MongoDBClient.construct freshProcess n =
        ({ client := 0, database := (0, n), database_name := n },
         { client := some 0, created := 1 }) := rfl
    have h2 := constructAll_stable ns { client := some 0, created := 1 } 0 rfl
    constructor
    · simp [constructAll, h1, h2]
    · intro i hi
      simp [constructAll, h1, h2] at hi
      rcases hi with rfl | ⟨n', -, rfl⟩ <;> rfl

/-- Witness for C9 at a concrete construction sequence with two distinct
database names. -/
theorem mongo_connection_created_at_most_once_witness :
    (constructAll freshProcess ["db_a", "db_b", "db_a"]).2.created ≤ 1 ∧
    ∀ i ∈ (constructAll freshProcess ["db_a", "db_b", "db_a"]).1, i.client = 0 :=
  mongo_connection_created_at_most_once ["db_a", "db_b", "db_a"]

/-- Claim C10: constructing the client a second time with a different
database name does not create or re-key the connection: the process state
is unchanged (still exactly one allocation, same stored connection), the
second instance holds the first call's connection, and only its database
handle and stored name reflect the new argument. -/
theorem second_construction_reuses_existing_connection
    (n1 n2 : String) (h : n1 ≠ n2) :
    (MongoDBClient.construct (MongoDBClient.construct freshProcess n1).2 n2).2
      = (MongoDBClient.construct freshProcess n1).2 ∧
    (MongoDBClient.construct (MongoDBClient.construct freshProcess n1).2 n2).2.created = 1 ∧
    (MongoDBClient.construct (MongoDBClient.construct freshProcess n1).2 n2).1.client
      = (MongoDBClient.construct freshProcess n1).1.client ∧
    (MongoDBClient.construct (MongoDBClient.construct freshProcess n1).2 n2).1.database
      = ((MongoDBClient.construct freshProcess n1).1.client, n2) ∧
    (MongoDBClient.construct (MongoDBClient.construct freshProcess n1).2 n2).1.database_name
      = n2 ∧
    (MongoDBClient.construct (MongoDBClient.construct freshProcess n1).2 n2).1.database
      ≠ (MongoDBClient.construct freshProcess n1).1.database :=
  ⟨rfl, rfl, rfl, rfl, rfl,
    by simpa [MongoDBClient.construct, freshProcess] using Ne.symm h⟩

/-- Witness for C10 at two concrete distinct database names. -/
theorem second_construction_reuses_existing_connection_witness :
    ("db_a" : String) ≠ "db_b" ∧
    ((MongoDBClient.construct (MongoDBClient.construct freshProcess "db_a").2 "db_b").2
        = (MongoDBClient.construct freshProcess "db_a").2 ∧
      (MongoDBClient.construct (MongoDBClient.construct freshProcess "db_a").2 "db_b").2.created
        = 1 ∧
      (MongoDBClient.construct (MongoDBClient.construct freshProcess "db_a").2 "db_b").1.client
        = (MongoDBClient.construct freshProcess "db_a").1.client ∧
      (MongoDBClient.construct (MongoDBClient.construct freshProcess "db_a").2 "db_b").1.database
        = ((MongoDBClient.construct freshProcess "db_a").1.client, "db_b") ∧
      (MongoDBClient.construct
          (MongoDBClient.construct freshProcess "db_a").2 "db_b").1.database_name
        = "db_b" ∧
      (MongoDBClient.construct (MongoDBClient.construct freshProcess "db_a").2 "db_b").1.database
        ≠ (MongoDBClient.construct freshProcess "db_a").1.database) :=
  ⟨by decide, second_construction_reuses_existing_connection "db_a" "db_b" (by decide)⟩

/-- On a row with no missing cell, constant imputation returns exactly the
raw values, whatever the constant. -/
theorem imputeRow_eq_reduceOption (v : ℚ) (row : List Cell)
    (h : ∀ c ∈ row, c.isSome) :
    row.map (fun c => c.getD v) = row.reduceOption := by
  induction row with
  | nil => rfl
  | cons c t ih =>
    obtain ⟨x, rfl⟩ := Option.isSome_iff_exists.mp (h c (by simp))
    simp [List.reduceOption_cons_of_some, ih (fun d hd => h d (by simp [hd]))]

/-- On a table with no missing cell, constant imputation is the identity on
the numeric content. -/
theorem imputeWith_eq_rawValues (v : ℚ) (X : List (List Cell)) (h : noMissing X) :
    imputeWith v X = rawValues X := by
  unfold imputeWith rawValues
  refine List.map_congr_left (fun row hrow => ?_)
  exact imputeRow_eq_reduceOption v row (h row hrow)

/-- Claim C5: on a feature table with no missing values the two-step
pipeline (constant-zero imputation, then robust scaling) fitted and applied
to the table coincides with the robust scaler fitted and applied directly
to the raw numeric values: the imputation step is a no-op there. -/
theorem imputer_noop_on_complete_table (X : List (List Cell)) (h : noMissing X) :
    FittedPipeline.transform (Pipeline.fit get_data_transformer_object X) X
      = scalerTransform (fitScaler (rawValues X)) (rawValues X) := by
  have himp : imputeWith get_data_transformer_object.fill_value X = rawValues X :=
    imputeWith_eq_rawValues _ X h
  simp [FittedPipeline.transform, Pipeline.fit, himp]

/-- Witness for C5: a concrete complete table satisfies `noMissing` and the
theorem applies to it. -/
theorem imputer_noop_on_complete_table_witness :
    noMissing [[some 1, some 2], [some 3, some 4]] ∧
    FittedPipeline.transform
        (Pipeline.fit get_data_transformer_object [[some 1, some 2], [some 3, some 4]])
        [[some 1, some 2], [some 3, some 4]]
      = scalerTransform (fitScaler (rawValues [[some 1, some 2], [some 3, some 4]]))
        (rawValues [[some 1, some 2], [some 3, some 4]]) :=
  ⟨by decide, imputer_noop_on_complete_table [[some 1, some 2], [some 3, some 4]] (by decide)⟩

/-- Removing the first row with label `c` lowers the count of `c` among the
row labels by one (and does nothing when no such row exists). -/
theorem count_snd_removeFirst_self (c : LabelVal) (rows : List (List ℚ × LabelVal)) :
    ((removeFirstWithLabel c rows).map Prod.snd).count c
      = ((rows.map Prod.snd).count c) - 1 := by
  induction rows with
  | nil => simp [removeFirstWithLabel]
  | cons r rs ih =>
    by_cases h : r.2 = c
    · simp [removeFirstWithLabel, h, List.count_cons]
    · simp [removeFirstWithLabel, h, List.count_cons, ih, Ne.symm h]

/-- Removing the first row with label `c` leaves the count of any other
label unchanged. -/
theorem count_snd_removeFirst_other {c c' : LabelVal} (hne : c' ≠ c)
    (rows : List (List ℚ × LabelVal)) :
    ((removeFirstWithLabel c rows).map Prod.snd).count c'
      = (rows.map Prod.snd).count c' := by
  induction rows with
  | nil => rfl
  | cons r rs ih =>
    by_cases h : r.2 = c
    · simp [removeFirstWithLabel, h, List.count_cons, hne]
    · simp [removeFirstWithLabel, h, List.count_cons, ih]

/-- Removing one `a`-labelled row and one `b`-labelled row preserves the
balance of the two labels. -/
theorem remove_pair_balance {a b : LabelVal} (hab : a ≠ b)
    (rows : List (List ℚ × LabelVal))
    (h : (rows.map Prod.snd).count a = (rows.map Prod.snd).count b) :
    ((removeFirstWithLabel b (removeFirstWithLabel a rows)).map Prod.snd).count a
      = ((removeFirstWithLabel b (removeFirstWithLabel a rows)).map Prod.snd).count b := by
  rw [count_snd_removeFirst_other hab, count_snd_removeFirst_self,
    count_snd_removeFirst_self, count_snd_removeFirst_other (Ne.symm hab), h]

/-- Removing both members of any sequence of inter-class Tomek links
preserves the balance of the two classes. -/
theorem tomekRemoveAll_balance {a b : LabelVal} (hab : a ≠ b)
    (links : List (LabelVal × LabelVal))
    (hl : ∀ l ∈ links, l = (a, b) ∨ l = (b, a))
    (rows : List (List ℚ × LabelVal))
    (h : (rows.map Prod.snd).count a = (rows.map Prod.snd).count b) :
    ((tomekRemoveAll links rows).map Prod.snd).count a
      = ((tomekRemoveAll links rows).map Prod.snd).count b := by
  induction links generalizing rows with
  | nil => simpa [tomekRemoveAll] using h
  | cons l ls ih =>
    have hstep :
        (((removeFirstWithLabel l.2 (removeFirstWithLabel l.1 rows)).map Prod.snd).count a
          = ((removeFirstWithLabel l.2 (removeFirstWithLabel l.1 rows)).map Prod.snd).count b) := by
      rcases hl l (by simp) with rfl | rfl
      · exact remove_pair_balance hab rows h
      · exact (remove_pair_balance (Ne.symm hab) rows h.symm).symm
    have hfold : tomekRemoveAll (l :: ls) rows
        = tomekRemoveAll ls (removeFirstWithLabel l.2 (removeFirstWithLabel l.1 rows)) := rfl
    rw [hfold]
    exact ih (fun x hx => hl x (by simp [hx])) _ hstep

/-- After the SMOTE phase the two classes of a binary label vector have
equal counts (stated for the dedup order `[a, b]`). -/
theorem count_smote_minority (synth : Nat → List ℚ) (X : List (List ℚ))
    {y : List LabelVal} {a b : LabelVal} (hab : a ≠ b) (hd : y.dedup = [a, b]) :
    (smote_minority synth X y).2.count a = (smote_minority synth X y).2.count b := by
  have hmin : minorityClass y = some (if y.count b < y.count a then b else a) := by
    unfold minorityClass
    rw [hd]
    rfl
  have hmaj : majorityCount y = Nat.max (Nat.max 0 (y.count a)) (y.count b) := by
    unfold majorityCount
    rw [hd]
    rfl
  by_cases h : y.count b < y.count a
  · have hmin' : minorityClass y = some b := by rw [hmin, if_pos h]
    rw [smote_minority, hmin', hmaj]
    simp [List.count_append, List.count_replicate, hab, Ne.symm hab]
    omega
  · have hmin' : minorityClass y = some a := by rw [hmin, if_neg h]
    rw [smote_minority, hmin', hmaj]
    simp [List.count_append, List.count_replicate, hab, Ne.symm hab]
    omega

/-- The SMOTE phase appends as many synthetic feature rows as labels. -/
theorem smote_minority_length (synth : Nat → List ℚ) (X : List (List ℚ))
    (y : List LabelVal) (hlen : X.length = y.length) :
    (smote_minority synth X y).2.length ≤ (smote_minority synth X y).1.length := by
  rcases hmc : minorityClass y with - | m
  · rw [smote_minority, hmc]
    exact hlen.ge
  · rw [smote_minority, hmc]
    simp [hlen]

/-- Claim C3: the balancing step.  For a binary label vector (classes `a`
and `b`, both present), whatever synthetic samples SMOTE interpolates and
whatever inter-class Tomek links the cleaning phase removes, the resampled
label vector returned by `fit_resample` has equally many `a`s and `b`s. -/
theorem smotetomek_resample_balances_binary_classes
    (synth : Nat → List ℚ) (links : List (LabelVal × LabelVal))
    (X : List (List ℚ)) (y : List LabelVal) (a b : LabelVal)
    (hab : a ≠ b)
    (hlen : X.length = y.length)
    (hd : y.dedup = [a, b] ∨ y.dedup = [b, a])
    (hl : ∀ l ∈ links, l = (a, b) ∨ l = (b, a)) :
    (smotetomek_fit_resample synth links X y).2.count a
      = (smotetomek_fit_resample synth links X y).2.count b := by
  have hsm : (smote_minority synth X y).2.count a
      = (smote_minority synth X y).2.count b := by
    rcases hd with hd | hd
    · exact count_smote_minority synth X hab hd
    · exact (count_smote_minority synth X (Ne.symm hab) hd).symm
  have hzip : (((smote_minority synth X y).1.zip (smote_minority synth X y).2).map Prod.snd)
      = (smote_minority synth X y).2 :=
    List.map_snd_zip _ _ (smote_minority_length synth X y hlen)
  have hbal := tomekRemoveAll_balance hab links hl
    ((smote_minority synth X y).1.zip (smote_minority synth X y).2)
    (by rw [hzip]; exact hsm)
  simpa [smotetomek_fit_resample] using hbal

/-- Witness for C3 at a concrete unbalanced binary vector: three rows with
labels 0, 1, 1 and one Tomek link. -/
theorem smotetomek_resample_balances_binary_classes_witness :
    (LabelVal.num 0 ≠ LabelVal.num 1 ∧
      ([[], [], []] : List (List ℚ)).length
        = [LabelVal.num 0, LabelVal.num 1, LabelVal.num 1].length ∧
      ([LabelVal.num 0, LabelVal.num 1, LabelVal.num 1].dedup
          = [LabelVal.num 0, LabelVal.num 1] ∨
        [LabelVal.num 0, LabelVal.num 1, LabelVal.num 1].dedup
          = [LabelVal.num 1, LabelVal.num 0]) ∧
      (∀ l ∈ [(LabelVal.num 0, LabelVal.num 1)],
        l = (LabelVal.num 0, LabelVal.num 1) ∨ l = (LabelVal.num 1, LabelVal.num 0))) ∧
    (smotetomek_fit_resample synthW [(LabelVal.num 0, LabelVal.num 1)] [[], [], []]
        [LabelVal.num 0, LabelVal.num 1, LabelVal.num 1]).2.count (LabelVal.num 0)
      = (smotetomek_fit_resample synthW [(LabelVal.num 0, LabelVal.num 1)] [[], [], []]
        [LabelVal.num 0, LabelVal.num 1, LabelVal.num 1]).2.count (LabelVal.num 1) :=
  ⟨⟨by decide, by decide, by decide, by decide⟩,
    smotetomek_resample_balances_binary_classes synthW
      [(LabelVal.num 0, LabelVal.num 1)] [[], [], []]
      [LabelVal.num 0, LabelVal.num 1, LabelVal.num 1]
      (LabelVal.num 0) (LabelVal.num 1)
      (by decide) (by decide) (by decide) (by decide)⟩

end Sensor
